import Mathlib

/-!
Verification of the pcinegpt authentication subsystem (spec.md sections 3, 4 and 7)
against the source in src/trakt.js, src/storage.js and src/app.js.

The repository stores several revisions of each file; this development embeds the
refactored revisions (the "GRAND REBUILD" halves of trakt.js and storage.js, and the
orchestrator revision of app.js), which are the revisions the specification and the
claims' decisive line citations describe.

Browser platform primitives are modelled explicitly:

* localStorage is an association list from keys to raw strings (Storage below);
* JSON.parse and JSON.stringify are parameters (parseJson, stringifyJson), since they
  are host functions, not repository code; JSON.parse may fail, which models the
  exception it throws in JavaScript;
* fetch is an oracle (FetchOutcome): either a network failure or an HTTP response
  carrying a status and the outcome of reading its body as JSON;
* Math.random / crypto.getRandomValues are modelled through RandomSource and through
  an index oracle for the verifier generator;
* window.crypto.subtle.digest is a parameter (sha256), btoa is defined concretely as
  standard base64 over byte values.

JavaScript exceptions become Except values; each throw site is tagged with the error
class the specification's taxonomy (spec.md section 7) assigns to it.
-/

namespace PCineGPT

/-- Model of window.localStorage: an association list from string keys to the raw
string values the browser stores. -/
abbrev Storage := List (String × String)

/-- Model of localStorage.getItem: the value stored at the key, if any. -/
def lsGetItem (s : Storage) (k : String) : Option String :=
  (s.find? (fun p => p.1 == k)).map Prod.snd

/-- Model of localStorage.removeItem: drops the binding for the key. -/
def lsRemoveItem (s : Storage) (k : String) : Storage :=
  s.filter (fun p => !(p.1 == k))

/-- Model of localStorage.setItem: replaces the binding for the key wholesale. -/
def lsSetItem (s : Storage) (k v : String) : Storage :=
  (k, v) :: lsRemoveItem s k

/-- JavaScript JSON values, the results of a successful JSON.parse. -/
inductive JsValue where
  | null
  | bool (b : Bool)
  | num (n : Int)
  | str (s : String)
  | arr (items : List JsValue)
  | obj (fields : List (String × JsValue))

/-- Property lookup on a parsed JSON object, as in errorData.error_description. -/
def jsGetField (v : JsValue) (key : String) : Option JsValue :=
  match v with
  | JsValue.obj fields => (fields.find? (fun p => p.1 == key)).map Prod.snd
  | _ => none

theorem lsGetItem_set (s : Storage) (k v : String) :
    lsGetItem (lsSetItem s k v) k = some v := by
  simp [lsGetItem, lsSetItem, List.find?]

theorem lsGetItem_remove (s : Storage) (k : String) :
    lsGetItem (lsRemoveItem s k) k = none := by
  induction s with
  | nil => rfl
  | cons a t ih =>
    by_cases h : a.1 == k
    · simp only [lsRemoveItem, List.filter_cons, h, Bool.not_true, if_neg] at ih ⊢
      exact ih
    · simp only [Bool.not_eq_true] at h
      simp only [lsRemoveItem, List.filter_cons, h, Bool.not_false, if_pos] at ih ⊢
      simp only [lsGetItem, List.find?_cons, h] at ih ⊢
      exact ih

/-! Embedding of src/storage.js (refactored revision, lines 102-217). -/

/-- Storage key for the Trakt credential record, src/storage.js line 115. -/
def TRAKT_TOKEN_KEY : String := "pcinegpt_trakt_tokens"

/-- Storage key for the local watchlist, src/storage.js line 114. -/
def WATCHLIST_KEY : String := "pcinegpt_watchlist"

/-- Embedding of getItem, src/storage.js lines 124-134. Reads the raw string at the
key; a falsy (absent or empty) value yields null; otherwise the value is passed to
JSON.parse, whose exception is caught: the corrupted entry is removed and null is
returned. The returned pair is the storage after the call together with the value
returned to the caller; the function is total, modelling that getItem never lets the
parse exception escape. -/
def getItem (parseJson : String → Except String JsValue) (s : Storage) (key : String) :
    Storage × Option JsValue :=
  match lsGetItem s key with
  | none => (s, none)
  | some itemJSON =>
    if itemJSON = "" then (s, none)
    else
      match parseJson itemJSON with
      | Except.ok v => (s, some v)
      | Except.error _ => (lsRemoveItem s key, none)

/-- Embedding of setItem, src/storage.js lines 141-148: stringify and store. The
stringify step is a host function modelled as a total parameter, so the catch branch
for a stringify failure has no counterpart here. -/
def setItem (stringifyJson : JsValue → String) (s : Storage) (key : String)
    (value : JsValue) : Storage :=
  lsSetItem s key (stringifyJson value)

/-- Embedding of saveTraktTokens, src/storage.js lines 200-202. -/
def saveTraktTokens (stringifyJson : JsValue → String) (s : Storage)
    (tokens : JsValue) : Storage :=
  setItem stringifyJson s TRAKT_TOKEN_KEY tokens

/-- Embedding of getTraktTokens, src/storage.js lines 208-210: the Credential Store
load operation. -/
def getTraktTokens (parseJson : String → Except String JsValue) (s : Storage) :
    Storage × Option JsValue :=
  getItem parseJson s TRAKT_TOKEN_KEY

/-- Embedding of clearTraktTokens, src/storage.js lines 215-217: removes the
credential key outright. -/
def clearTraktTokens (s : Storage) : Storage :=
  lsRemoveItem s TRAKT_TOKEN_KEY

theorem getTraktTokens_clear (parseJson : String → Except String JsValue)
    (s : Storage) :
    getTraktTokens parseJson (clearTraktTokens s) = (clearTraktTokens s, none) := by
  simp [getTraktTokens, getItem, clearTraktTokens, lsGetItem_remove]

theorem getItem_snd_some_fst (parseJson : String → Except String JsValue)
    (s : Storage) (key : String) (t : JsValue)
    (h : (getItem parseJson s key).2 = some t) : (getItem parseJson s key).1 = s := by
  unfold getItem at h ⊢
  cases hg : lsGetItem s key with
  | none => simp [hg]
  | some raw =>
    simp only [hg] at h ⊢
    by_cases he : raw = ""
    · simp [he]
    · simp only [he, if_neg, ite_false] at h ⊢
      cases hp : parseJson raw with
      | ok v => simp [hp]
      | error e => simp [hp] at h

/-! Embedding of src/trakt.js (GRAND REBUILD revision, lines 195-369). -/

/-- An HTTP response as the code observes it: the numeric status together with the
outcome of reading the body as JSON (await response.json()), which throws a
SyntaxError on an unparsable body, modelled by the error case. -/
structure HttpResponse where
  status : Nat
  body : Except String JsValue

/-- Outcome of a fetch call: either the promise rejects with a network failure or a
response arrives. -/
inductive FetchOutcome where
  | networkError (msg : String)
  | response (r : HttpResponse)

/-- The response.ok flag of the fetch API: status in the inclusive range 200-299. -/
def responseOk (status : Nat) : Bool :=
  decide (200 ≤ status) && decide (status ≤ 299)

/-- Error classes of the authentication subsystem, following the taxonomy of spec.md
section 7. The JavaScript code throws untyped Error values; each throw site in the
embedding is tagged with the class the taxonomy assigns to it. networkFailure and
invalidJson cover the exceptions that escape fetchFromTrakt uncaught (a rejected
fetch promise and an unparsable success body), which the taxonomy does not name. -/
inductive AuthError where
  | missingVerifier
  | notAuthenticated
  | tokenExchangeFailed (detail : Option String)
  | unauthorized
  | requestFailed (status : Nat)
  | networkFailure (msg : String)
  | invalidJson (msg : String)
deriving DecidableEq

/-- Embedding of logoutTrakt, src/trakt.js lines 302-305: the Session Terminator. It
clears the stored tokens; the subsequent location.reload() is a UI-layer effect that
re-enters the application from scratch and does not touch the store further. -/
def logoutTrakt (s : Storage) : Storage :=
  clearTraktTokens s

/-- Extraction of errorData.error_description used in the token exchange failure
message, src/trakt.js line 286. -/
def errorDescriptionOf (errorData : JsValue) : Option String :=
  match jsGetField errorData "error_description" with
  | some (JsValue.str s) => some s
  | _ => none

/-- Result of a handleTraktCallback run: the session-storage verifier slot, the
localStorage contents, and the value returned or error thrown to the caller. -/
structure CallbackResult where
  sessionVerifier : Option String
  store : Storage
  result : Except AuthError Unit

/-- Embedding of handleTraktCallback, src/trakt.js lines 263-297. Arguments: the
JSON.stringify host function, the fetch oracle for the POST to the token endpoint,
the session-storage slot holding the pending PKCE verifier, the localStorage
contents, and the authorization code (which only flows into the request body, hence
is unused by the model). If the verifier is absent the function throws before the
try block, so the finally clause never runs, but the slot is already empty. In every
other path the finally clause removes the verifier. A non-ok status reads the error
body and throws; the catch block clears the stored tokens and rethrows, so every
failure of the exchange surfaces to the caller with the tokens cleared. -/
def handleTraktCallback (stringifyJson : JsValue → String) (exchange : FetchOutcome)
    (sess : Option String) (s : Storage) (_authCode : String) : CallbackResult :=
  match sess with
  | none => ⟨none, s, Except.error AuthError.missingVerifier⟩
  | some _verifier =>
    match exchange with
    | FetchOutcome.networkError msg =>
      ⟨none, clearTraktTokens s, Except.error (AuthError.tokenExchangeFailed (some msg))⟩
    | FetchOutcome.response r =>
      if responseOk r.status = false then
        match r.body with
        | Except.ok errorData =>
          ⟨none, clearTraktTokens s,
            Except.error (AuthError.tokenExchangeFailed (errorDescriptionOf errorData))⟩
        | Except.error _ =>
          ⟨none, clearTraktTokens s, Except.error (AuthError.tokenExchangeFailed none)⟩
      else
        match r.body with
        | Except.ok tokens =>
          ⟨none, saveTraktTokens stringifyJson s tokens, Except.ok ()⟩
        | Except.error _ =>
          ⟨none, clearTraktTokens s, Except.error (AuthError.tokenExchangeFailed none)⟩

/-- Embedding of fetchFromTrakt, src/trakt.js lines 314-339: the Authenticated
Request Gateway. It loads the credential record (which may drop a corrupted entry,
hence the threaded storage), fails fast when absent, and dispatches on the response:
401 forces logout before throwing, any other non-ok status throws without touching
the store, 204 succeeds with an empty payload, and otherwise the parsed body is
returned. The Authorization and API headers are request data sent to the network and
have no observable effect in this model. -/
def fetchFromTrakt (parseJson : String → Except String JsValue)
    (outcome : FetchOutcome) (s : Storage) (_endpoint : String) :
    Storage × Except AuthError (Option JsValue) :=
  match getTraktTokens parseJson s with
  | (s2, none) => (s2, Except.error AuthError.notAuthenticated)
  | (s2, some _tokens) =>
    match outcome with
    | FetchOutcome.networkError msg => (s2, Except.error (AuthError.networkFailure msg))
    | FetchOutcome.response r =>
      if r.status = 401 then
        (logoutTrakt s2, Except.error AuthError.unauthorized)
      else if responseOk r.status = false then
        (s2, Except.error (AuthError.requestFailed r.status))
      else if r.status = 204 then
        (s2, Except.ok none)
      else
        match r.body with
        | Except.ok v => (s2, Except.ok (some v))
        | Except.error msg => (s2, Except.error (AuthError.invalidJson msg))

theorem handleTraktCallback_verifier_none (stringifyJson : JsValue → String)
    (exchange : FetchOutcome) (sess : Option String) (s : Storage) (code : String) :
    (handleTraktCallback stringifyJson exchange sess s code).sessionVerifier = none := by
  unfold handleTraktCallback
  cases sess with
  | none => rfl
  | some v =>
    cases exchange with
    | networkError msg => rfl
    | response r =>
      by_cases h : responseOk r.status = false
      · simp only [h, if_pos]
        cases r.body <;> rfl
      · simp only [h, if_neg, ite_false]
        cases r.body <;> rfl

/-! Embedding of the application-level authentication state, src/app.js
(orchestrator revision, lines 290-699). -/

/-- The pieces of browser state the application startup path touches: localStorage,
the session-storage PKCE verifier slot, and the in-memory flag
state.isTraktAuthenticated declared at src/app.js line 315. -/
structure AppState where
  localStore : Storage
  sessionVerifier : Option String
  isTraktAuthenticated : Bool

/-- Module-load initialisation of state.isTraktAuthenticated, src/app.js lines
314-317: the flag is the truthiness of STORAGE.getTraktTokens(); reading may drop a
corrupted entry, hence the threaded storage. -/
def initialAuthFlag (parseJson : String → Except String JsValue) (s : Storage) :
    Storage × Bool :=
  match getTraktTokens parseJson s with
  | (s2, v) => (s2, v.isSome)

/-- Embedding of the auth-relevant part of init, src/app.js lines 681-688: when the
URL carries an authorization code, handleTraktCallback is awaited and on success the
in-memory flag is set to true. When the callback throws, the await propagates the
exception out of init, so the assignment to the flag never runs and the flag keeps
the value module-load gave it. -/
def appInit (stringifyJson : JsValue → String) (urlCode : Option String)
    (exchange : FetchOutcome) (w : AppState) : AppState × Except AuthError Unit :=
  match urlCode with
  | none => (w, Except.ok ())
  | some code =>
    match handleTraktCallback stringifyJson exchange w.sessionVerifier w.localStore code with
    | ⟨sess2, store2, Except.ok _⟩ =>
      (⟨store2, sess2, true⟩, Except.ok ())
    | ⟨sess2, store2, Except.error e⟩ =>
      (⟨store2, sess2, w.isTraktAuthenticated⟩, Except.error e)

/-- Composition of module load and init for src/app.js: the in-memory flag is first
derived from storage, then init runs with the given URL code and exchange outcome. -/
def appStartup (parseJson : String → Except String JsValue)
    (stringifyJson : JsValue → String) (s : Storage) (sess : Option String)
    (urlCode : Option String) (exchange : FetchOutcome) :
    AppState × Except AuthError Unit :=
  match initialAuthFlag parseJson s with
  | (s2, flag) => appInit stringifyJson urlCode exchange ⟨s2, sess, flag⟩

/-! Embedding of the PKCE generator, src/trakt.js lines 218-237. -/

/-- The unreserved character set used by generateCodeVerifier, src/trakt.js line
219; it has 66 characters. -/
def possibleChars : String :=
  "ABCDEFGHIJKLMNOPQRSTUVWXYZabcdefghijklmnopqrstuvwxyz0123456789-._~"

/-- Embedding of generateCodeVerifier, src/trakt.js lines 218-225. The call
Math.floor(Math.random() * possible.length) yields an integer in 0..65 because
Math.random is below one; randomIndex is the oracle producing those draws, one per
loop iteration. Each draw indexes possible.charAt. -/
def generateCodeVerifier (randomIndex : Nat → Fin 66) (length : Nat) : String :=
  String.mk ((List.range length).map (fun i => possibleChars.toList.getD (randomIndex i).val 'A'))

/-- The entropy sources available to a browser page. -/
inductive RandomSource where
  | mathRandom
  | cryptoGetRandomValues
deriving DecidableEq

/-- Whether an entropy source is cryptographically secure: Math.random is a seeded
non-cryptographic PRNG, while crypto.getRandomValues is the Web Crypto CSPRNG. -/
def cryptographicallySecure : RandomSource → Bool
  | RandomSource.mathRandom => false
  | RandomSource.cryptoGetRandomValues => true

/-- The entropy source generateCodeVerifier actually draws from: Math.random(), at
src/trakt.js line 222. -/
def generateCodeVerifierSource : RandomSource :=
  RandomSource.mathRandom

/-- UTF-8 bytes of a string, the result of new TextEncoder().encode(verifier) at
src/trakt.js line 233, as numeric byte values. -/
def utf8Bytes (s : String) : List Nat :=
  s.toUTF8.toList.map (fun b => b.toNat)

/-- The standard base64 alphabet, indexed 0-63. -/
def base64Alphabet : String :=
  "ABCDEFGHIJKLMNOPQRSTUVWXYZabcdefghijklmnopqrstuvwxyz0123456789+/"

/-- Character for a sextet value; indices produced by base64Chunks are below 64, so
the default is never reached. -/
def base64Char (n : Nat) : Char :=
  base64Alphabet.toList.getD n 'A'

/-- Standard base64 of a byte list, three bytes to four characters with trailing
padding by the equals sign. -/
def base64Chunks : List Nat → List Char
  | [] => []
  | [b1] => [base64Char (b1 / 4), base64Char (b1 % 4 * 16), '=', '=']
  | [b1, b2] =>
    [base64Char (b1 / 4), base64Char (b1 % 4 * 16 + b2 / 16), base64Char (b2 % 16 * 4), '=']
  | b1 :: b2 :: b3 :: rest =>
    base64Char (b1 / 4) :: base64Char (b1 % 4 * 16 + b2 / 16) ::
      base64Char (b2 % 16 * 4 + b3 / 64) :: base64Char (b3 % 64) ::
      base64Chunks rest

/-- Model of the btoa host function on a byte string (the code reaches it through
String.fromCharCode over the digest bytes, all below 256; the modulus makes byte
range explicit). -/
def btoa (bytes : List Nat) : String :=
  String.mk (base64Chunks (bytes.map (fun b => b % 256)))

/-- One character step of the two global replacements at src/trakt.js line 236: plus
becomes minus and slash becomes underscore. -/
def base64UrlEscape (c : Char) : Char :=
  if c = '+' then '-' else if c = '/' then '_' else c

/-- The trailing-equals strip of the final replace at src/trakt.js line 236. -/
def stripTrailingEquals (cs : List Char) : List Char :=
  (cs.reverse.dropWhile (fun c => c = '=')).reverse

/-- Embedding of generateCodeChallenge, src/trakt.js lines 232-237: SHA-256 (a Web
Crypto host primitive, passed as the sha256 parameter) over the UTF-8 bytes of the
verifier, base64 via btoa, then the Base64URL substitutions and the trailing padding
strip. -/
def generateCodeChallenge (sha256 : List Nat → List Nat) (verifier : String) : String :=
  String.mk (stripTrailingEquals (((btoa (sha256 (utf8Bytes verifier))).toList).map base64UrlEscape))

/-! Claim theorems. -/

/-- C1: for every protected call through fetchFromTrakt while a credential record is
stored, a 401 response invokes the Session Terminator (logoutTrakt) before the call
returns its Unauthorized failure, and getTraktTokens returns null on the resulting
store, with no explicit terminate call by the caller. -/
theorem automatic_logout_on_401 (parseJson : String → Except String JsValue)
    (s : Storage) (endpoint : String) (t : JsValue) (body : Except String JsValue)
    (h : (getTraktTokens parseJson s).2 = some t) :
    fetchFromTrakt parseJson (FetchOutcome.response ⟨401, body⟩) s endpoint
      = (logoutTrakt s, Except.error AuthError.unauthorized) ∧
    (getTraktTokens parseJson
        (fetchFromTrakt parseJson (FetchOutcome.response ⟨401, body⟩) s endpoint).1).2 = none := by
  have hfst : (getTraktTokens parseJson s).1 = s :=
    getItem_snd_some_fst parseJson s TRAKT_TOKEN_KEY t h
  have hpair : getTraktTokens parseJson s = (s, some t) := by
    rw [Prod.ext_iff]; exact ⟨hfst, h⟩
  have hrun : fetchFromTrakt parseJson (FetchOutcome.response ⟨401, body⟩) s endpoint
      = (logoutTrakt s, Except.error AuthError.unauthorized) := by
    unfold fetchFromTrakt
    rw [hpair]
    rfl
  refine ⟨hrun, ?_⟩
  rw [hrun]
  simp [logoutTrakt, getTraktTokens_clear]

/-- Witness for C1 at a concrete store holding a parsable credential and a concrete
401 response. -/
theorem automatic_logout_on_401_witness :
    fetchFromTrakt
        (fun str => if str = "TOK" then Except.ok (JsValue.str "tok") else Except.error "SyntaxError")
        (FetchOutcome.response ⟨401, Except.error "SyntaxError"⟩)
        [(TRAKT_TOKEN_KEY, "TOK")] "/users/me/stats"
      = (logoutTrakt [(TRAKT_TOKEN_KEY, "TOK")], Except.error AuthError.unauthorized) ∧
    (getTraktTokens
        (fun str => if str = "TOK" then Except.ok (JsValue.str "tok") else Except.error "SyntaxError")
        (fetchFromTrakt
          (fun str => if str = "TOK" then Except.ok (JsValue.str "tok") else Except.error "SyntaxError")
          (FetchOutcome.response ⟨401, Except.error "SyntaxError"⟩)
          [(TRAKT_TOKEN_KEY, "TOK")] "/users/me/stats").1).2 = none :=
  automatic_logout_on_401
    (fun str => if str = "TOK" then Except.ok (JsValue.str "tok") else Except.error "SyntaxError")
    [(TRAKT_TOKEN_KEY, "TOK")] "/users/me/stats" (JsValue.str "tok")
    (Except.error "SyntaxError") rfl

/-- C7: a protected call with a stored credential that receives a non-success status
other than 401 fails with the generic RequestFailed error and leaves the store, and
hence the credential record, exactly as it was; logout is not triggered. -/
theorem non_401_failure_preserves_credentials (parseJson : String → Except String JsValue)
    (s : Storage) (endpoint : String) (t : JsValue) (r : HttpResponse)
    (h : (getTraktTokens parseJson s).2 = some t)
    (hok : responseOk r.status = false) (h401 : r.status ≠ 401) :
    fetchFromTrakt parseJson (FetchOutcome.response r) s endpoint
      = (s, Except.error (AuthError.requestFailed r.status)) := by
  have hfst : (getTraktTokens parseJson s).1 = s :=
    getItem_snd_some_fst parseJson s TRAKT_TOKEN_KEY t h
  have hpair : getTraktTokens parseJson s = (s, some t) := by
    rw [Prod.ext_iff]; exact ⟨hfst, h⟩
  unfold fetchFromTrakt
  rw [hpair]
  simp [h401, hok]

/-- Witness for C7 at a concrete store and a concrete 500 response. -/
theorem non_401_failure_preserves_credentials_witness :
    fetchFromTrakt
        (fun str => if str = "TOK" then Except.ok (JsValue.str "tok") else Except.error "SyntaxError")
        (FetchOutcome.response ⟨500, Except.error "SyntaxError"⟩)
        [(TRAKT_TOKEN_KEY, "TOK")] "/users/me/stats"
      = ([(TRAKT_TOKEN_KEY, "TOK")], Except.error (AuthError.requestFailed 500)) :=
  non_401_failure_preserves_credentials
    (fun str => if str = "TOK" then Except.ok (JsValue.str "tok") else Except.error "SyntaxError")
    [(TRAKT_TOKEN_KEY, "TOK")] "/users/me/stats" (JsValue.str "tok")
    ⟨500, Except.error "SyntaxError"⟩ rfl rfl (by decide)

/-- C8: a protected call with a stored credential that receives a 204 No-Content
response succeeds with an empty payload instead of being treated as an error. -/
theorem no_content_is_success (parseJson : String → Except String JsValue)
    (s : Storage) (endpoint : String) (t : JsValue) (body : Except String JsValue)
    (h : (getTraktTokens parseJson s).2 = some t) :
    fetchFromTrakt parseJson (FetchOutcome.response ⟨204, body⟩) s endpoint
      = (s, Except.ok none) := by
  have hfst : (getTraktTokens parseJson s).1 = s :=
    getItem_snd_some_fst parseJson s TRAKT_TOKEN_KEY t h
  have hpair : getTraktTokens parseJson s = (s, some t) := by
    rw [Prod.ext_iff]; exact ⟨hfst, h⟩
  unfold fetchFromTrakt
  rw [hpair]
  simp [responseOk]

/-- Witness for C8 at a concrete store and a concrete 204 response with an empty
body. -/
theorem no_content_is_success_witness :
    fetchFromTrakt
        (fun str => if str = "TOK" then Except.ok (JsValue.str "tok") else Except.error "SyntaxError")
        (FetchOutcome.response ⟨204, Except.error "SyntaxError"⟩)
        [(TRAKT_TOKEN_KEY, "TOK")] "/users/me/stats"
      = ([(TRAKT_TOKEN_KEY, "TOK")], Except.ok none) :=
  no_content_is_success
    (fun str => if str = "TOK" then Except.ok (JsValue.str "tok") else Except.error "SyntaxError")
    [(TRAKT_TOKEN_KEY, "TOK")] "/users/me/stats" (JsValue.str "tok")
    (Except.error "SyntaxError") rfl

/-- C9: whatever string sits under the credential storage key, the Credential Store
load operation returns normally; when JSON.parse rejects the content the result is
null, so corrupted credentials read as not authenticated. Totality of getItem models
that the parse exception never escapes. -/
theorem corrupted_credentials_read_as_null (parseJson : String → Except String JsValue)
    (s : Storage) (content : String) (e : String)
    (h : parseJson content = Except.error e) :
    (getTraktTokens parseJson (lsSetItem s TRAKT_TOKEN_KEY content)).2 = none := by
  unfold getTraktTokens getItem
  rw [lsGetItem_set]
  by_cases he : content = ""
  · simp [he]
  · simp [he, h]

/-- Witness for C9: non-JSON garbage under the credential key reads as null. -/
theorem corrupted_credentials_read_as_null_witness :
    (getTraktTokens (fun _ => Except.error "SyntaxError")
        (lsSetItem [] TRAKT_TOKEN_KEY "not json at all")).2 = none :=
  corrupted_credentials_read_as_null (fun _ => Except.error "SyntaxError")
    [] "not json at all" "SyntaxError" rfl

/-- C2: the pending PKCE verifier is single-use. With no verifier in transient
storage, handleTraktCallback fails with MissingVerifier without attempting the
exchange or touching any state; and after any one call, whatever its outcome, a
second call fails with MissingVerifier because every path of the first call leaves
the verifier slot empty. -/
theorem single_use_verifier (stringifyJson : JsValue → String) :
    (∀ (exchange : FetchOutcome) (s : Storage) (code : String),
        handleTraktCallback stringifyJson exchange none s code
          = ⟨none, s, Except.error AuthError.missingVerifier⟩) ∧
    (∀ (e1 : FetchOutcome) (sess : Option String) (s : Storage) (c1 : String)
        (e2 : FetchOutcome) (c2 : String),
        (handleTraktCallback stringifyJson e2
            (handleTraktCallback stringifyJson e1 sess s c1).sessionVerifier
            (handleTraktCallback stringifyJson e1 sess s c1).store c2).result
          = Except.error AuthError.missingVerifier) := by
  refine ⟨fun exchange s code => rfl, fun e1 sess s c1 e2 c2 => ?_⟩
  rw [handleTraktCallback_verifier_none]
  rfl

/-- C3: when the token endpoint answers with a non-success status, the callback
fails with a TokenExchangeFailed error that reaches the caller, and afterwards the
Credential Store load operation returns null, so no credential is persisted. -/
theorem token_exchange_failure_surfaces (stringifyJson : JsValue → String)
    (parseJson : String → Except String JsValue) (v : String) (s : Storage)
    (r : HttpResponse) (code : String)
    (hok : responseOk r.status = false) :
    (∃ d, (handleTraktCallback stringifyJson (FetchOutcome.response r) (some v) s code).result
        = Except.error (AuthError.tokenExchangeFailed d)) ∧
    (getTraktTokens parseJson
        (handleTraktCallback stringifyJson (FetchOutcome.response r) (some v) s code).store).2
      = none := by
  unfold handleTraktCallback
  simp only [hok, if_pos]
  cases hb : r.body with
  | ok errorData =>
    exact ⟨⟨errorDescriptionOf errorData, rfl⟩, by simp [getTraktTokens_clear]⟩
  | error msg =>
    exact ⟨⟨none, rfl⟩, by simp [getTraktTokens_clear]⟩

/-- Witness for C3 at a concrete 500 response whose error body does not parse. -/
theorem token_exchange_failure_surfaces_witness :
    (∃ d, (handleTraktCallback (fun _ => "JSONTEXT")
        (FetchOutcome.response ⟨500, Except.error "SyntaxError"⟩)
        (some "VERIFIER") [(TRAKT_TOKEN_KEY, "TOK")] "abc123").result
        = Except.error (AuthError.tokenExchangeFailed d)) ∧
    (getTraktTokens (fun _ => Except.error "SyntaxError")
        (handleTraktCallback (fun _ => "JSONTEXT")
          (FetchOutcome.response ⟨500, Except.error "SyntaxError"⟩)
          (some "VERIFIER") [(TRAKT_TOKEN_KEY, "TOK")] "abc123").store).2 = none :=
  token_exchange_failure_surfaces (fun _ => "JSONTEXT") (fun _ => Except.error "SyntaxError")
    "VERIFIER" [(TRAKT_TOKEN_KEY, "TOK")] ⟨500, Except.error "SyntaxError"⟩ "abc123" rfl

/-- C10: whenever the callback fails while a verifier was pending — non-success
status, network error, or unparsable response body — the whole credential storage
key is cleared, so a credential stored before the call is destroyed and the
Credential Store load operation returns null afterwards. -/
theorem failed_exchange_clears_stored_credential (stringifyJson : JsValue → String)
    (parseJson : String → Except String JsValue) (v : String) (s : Storage)
    (exchange : FetchOutcome) (code : String) (e : AuthError)
    (h : (handleTraktCallback stringifyJson exchange (some v) s code).result
        = Except.error e) :
    (handleTraktCallback stringifyJson exchange (some v) s code).store
        = clearTraktTokens s ∧
    (getTraktTokens parseJson
        (handleTraktCallback stringifyJson exchange (some v) s code).store).2 = none := by
  have hstore : (handleTraktCallback stringifyJson exchange (some v) s code).store
      = clearTraktTokens s := by
    unfold handleTraktCallback at h ⊢
    cases exchange with
    | networkError msg => rfl
    | response r =>
      by_cases hok : responseOk r.status = false
      · simp only [hok, if_pos]
        cases r.body <;> rfl
      · simp only [hok, if_neg, ite_false] at h ⊢
        cases hb : r.body with
        | ok tokens => rw [hb] at h; exact absurd h (by simp)
        | error msg => rfl
  exact ⟨hstore, by rw [hstore]; simp [getTraktTokens_clear]⟩

/-- Witness for C10: a previously stored credential is destroyed by a network
failure during the exchange. -/
theorem failed_exchange_clears_stored_credential_witness :
    (handleTraktCallback (fun _ => "JSONTEXT") (FetchOutcome.networkError "offline")
        (some "VERIFIER") [(TRAKT_TOKEN_KEY, "TOK")] "abc123").store
      = clearTraktTokens [(TRAKT_TOKEN_KEY, "TOK")] ∧
    (getTraktTokens (fun _ => Except.error "SyntaxError")
        (handleTraktCallback (fun _ => "JSONTEXT") (FetchOutcome.networkError "offline")
          (some "VERIFIER") [(TRAKT_TOKEN_KEY, "TOK")] "abc123").store).2 = none :=
  failed_exchange_clears_stored_credential (fun _ => "JSONTEXT")
    (fun _ => Except.error "SyntaxError") "VERIFIER" [(TRAKT_TOKEN_KEY, "TOK")]
    (FetchOutcome.networkError "offline") "abc123"
    (AuthError.tokenExchangeFailed (some "offline")) rfl

/-- C6 counterexample: the claim that the record's presence is the sole source of
truth with no separate logged-in flag is false of the code. app.js keeps the
in-memory flag state.isTraktAuthenticated, and at this concrete input — a stored
parsable credential, a pending verifier, an authorization code in the URL, and a 500
answer from the token endpoint — the startup path leaves the flag true while the
credential storage is empty, so storage presence and considered-authenticated state
disagree. -/
theorem auth_flag_desync_counterexample :
    ((appStartup
        (fun str => if str = "TOK" then Except.ok (JsValue.str "tok") else Except.error "SyntaxError")
        (fun _ => "JSONTEXT")
        [(TRAKT_TOKEN_KEY, "TOK")] (some "VERIFIER") (some "abc123")
        (FetchOutcome.response ⟨500, Except.error "SyntaxError"⟩)).1.isTraktAuthenticated
      = true) ∧
    ((getTraktTokens
        (fun str => if str = "TOK" then Except.ok (JsValue.str "tok") else Except.error "SyntaxError")
        (appStartup
          (fun str => if str = "TOK" then Except.ok (JsValue.str "tok") else Except.error "SyntaxError")
          (fun _ => "JSONTEXT")
          [(TRAKT_TOKEN_KEY, "TOK")] (some "VERIFIER") (some "abc123")
          (FetchOutcome.response ⟨500, Except.error "SyntaxError"⟩)).1.localStore).2
      = none) :=
  ⟨rfl, rfl⟩

/-- C6 amended: the application keeps a separate in-memory flag,
state.isTraktAuthenticated, initialised from storage at module load; the flag can
fall out of sync with the store: whenever a credential is stored and the startup
token exchange fails with a non-success status, the flag still reads authenticated
while the Credential Store load operation returns null, so the record's presence is
not the sole source of truth for the application's authentication state. -/
theorem auth_flag_can_desync (parseJson : String → Except String JsValue)
    (stringifyJson : JsValue → String) (s : Storage) (t : JsValue)
    (verifier code : String) (r : HttpResponse)
    (h : (getTraktTokens parseJson s).2 = some t)
    (hok : responseOk r.status = false) :
    ((appStartup parseJson stringifyJson s (some verifier) (some code)
        (FetchOutcome.response r)).1.isTraktAuthenticated = true) ∧
    ((getTraktTokens parseJson
        (appStartup parseJson stringifyJson s (some verifier) (some code)
          (FetchOutcome.response r)).1.localStore).2 = none) := by
  have hfst : (getTraktTokens parseJson s).1 = s :=
    getItem_snd_some_fst parseJson s TRAKT_TOKEN_KEY t h
  have hpair : getTraktTokens parseJson s = (s, some t) := by
    rw [Prod.ext_iff]; exact ⟨hfst, h⟩
  refine ⟨?_, ?_⟩ <;>
  · unfold appStartup initialAuthFlag appInit handleTraktCallback
    rw [hpair]
    cases hb : r.body <;> simp [hok, hb, getTraktTokens_clear]

/-- Witness for the amended C6 at the concrete startup input with a stored
credential and a failing exchange. -/
theorem auth_flag_can_desync_witness :
    ((appStartup
        (fun str => if str = "CRED" then Except.ok (JsValue.str "cred") else Except.error "SyntaxError")
        (fun _ => "JSONTEXT")
        [(TRAKT_TOKEN_KEY, "CRED")] (some "VERIFIER2") (some "code42")
        (FetchOutcome.response ⟨503, Except.error "SyntaxError"⟩)).1.isTraktAuthenticated
      = true) ∧
    ((getTraktTokens
        (fun str => if str = "CRED" then Except.ok (JsValue.str "cred") else Except.error "SyntaxError")
        (appStartup
          (fun str => if str = "CRED" then Except.ok (JsValue.str "cred") else Except.error "SyntaxError")
          (fun _ => "JSONTEXT")
          [(TRAKT_TOKEN_KEY, "CRED")] (some "VERIFIER2") (some "code42")
          (FetchOutcome.response ⟨503, Except.error "SyntaxError"⟩)).1.localStore).2
      = none) :=
  auth_flag_can_desync
    (fun str => if str = "CRED" then Except.ok (JsValue.str "cred") else Except.error "SyntaxError")
    (fun _ => "JSONTEXT") [(TRAKT_TOKEN_KEY, "CRED")] (JsValue.str "cred")
    "VERIFIER2" "code42" ⟨503, Except.error "SyntaxError"⟩ rfl rfl

theorem possibleChars_getD_mem :
    ∀ j : Fin 66, possibleChars.toList.contains (possibleChars.toList.getD j.val 'A') = true := by
  decide

/-- C4: the format half of the claim holds — for every length argument the verifier
has exactly that many characters, all drawn from the unreserved set — but the
claimed cryptographically secure random source is absent: generateCodeVerifier draws
from Math.random, which is not a CSPRNG, contradicting the claim, spec.md section
4.1, and the function's own doc comment. -/
theorem verifier_well_formed_but_not_csprng :
    cryptographicallySecure generateCodeVerifierSource = false ∧
    ∀ (randomIndex : Nat → Fin 66) (n : Nat),
      (generateCodeVerifier randomIndex n).length = n ∧
      ((generateCodeVerifier randomIndex n).toList.all
        (fun c => possibleChars.toList.contains c)) = true := by
  refine ⟨rfl, fun randomIndex n => ⟨?_, ?_⟩⟩
  · show ((List.range n).map
        (fun i => possibleChars.toList.getD (randomIndex i).val 'A')).length = n
    simp
  · show ((List.range n).map
        (fun i => possibleChars.toList.getD (randomIndex i).val 'A')).all
        (fun c => possibleChars.toList.contains c) = true
    rw [List.all_eq_true]
    intro c hc
    rcases List.mem_map.mp hc with ⟨i, _hi, hEq⟩
    rw [← hEq]
    exact possibleChars_getD_mem (randomIndex i)

/-- A character is safe for the PKCE challenge when it is none of plus, slash or
equals. -/
def urlSafeChar (c : Char) : Bool :=
  !(c == '+' || c == '/' || c == '=')

theorem base64Char_mem (n : Nat) : base64Char n ∈ base64Alphabet.toList := by
  unfold base64Char
  by_cases h : n < base64Alphabet.toList.length
  · rw [List.getD_eq_getElem _ _ h]
    exact List.getElem_mem h
  · rw [List.getD_eq_default _ _ (Nat.le_of_not_lt h)]
    decide

theorem mem_map_base64Char (l : List Nat) :
    ∀ c ∈ l.map base64Char, c ∈ base64Alphabet.toList := by
  intro c hc
  rcases List.mem_map.mp hc with ⟨n, _, rfl⟩
  exact base64Char_mem n

theorem base64Alphabet_escape_safe :
    ∀ c ∈ base64Alphabet.toList, urlSafeChar (base64UrlEscape c) = true := by
  decide

theorem urlSafeChar_ne_equals (c : Char) (h : urlSafeChar c = true) : ¬(c = '=') := by
  intro he
  subst he
  simp [urlSafeChar] at h

theorem base64Chunks_decomp (bs : List Nat) :
    ∃ body pad, base64Chunks bs = body ++ pad ∧
      (∀ c ∈ body, c ∈ base64Alphabet.toList) ∧
      (pad = [] ∨ pad = ['='] ∨ pad = ['=', '=']) := by
  induction bs using base64Chunks.induct with
  | case1 =>
    exact ⟨[], [], rfl, fun c hc => absurd hc (List.not_mem_nil c), Or.inl rfl⟩
  | case2 b1 =>
    exact ⟨[b1 / 4, b1 % 4 * 16].map base64Char, ['=', '='], rfl,
      mem_map_base64Char _, Or.inr (Or.inr rfl)⟩
  | case3 b1 b2 =>
    exact ⟨[b1 / 4, b1 % 4 * 16 + b2 / 16, b2 % 16 * 4].map base64Char, ['='], rfl,
      mem_map_base64Char _, Or.inr (Or.inl rfl)⟩
  | case4 b1 b2 b3 rest ih =>
    obtain ⟨body, pad, h1, h2, h3⟩ := ih
    refine ⟨[b1 / 4, b1 % 4 * 16 + b2 / 16, b2 % 16 * 4 + b3 / 64, b3 % 64].map base64Char
        ++ body, pad, ?_, ?_, h3⟩
    · show base64Chunks (b1 :: b2 :: b3 :: rest) = _
      unfold base64Chunks
      rw [h1]
      simp
    · intro c hc
      rcases List.mem_append.mp hc with hc | hc
      · exact mem_map_base64Char _ c hc
      · exact h2 c hc

theorem dropWhile_append_all (p : Char → Bool) (l1 l2 : List Char)
    (h : ∀ a ∈ l1, p a = true) : (l1 ++ l2).dropWhile p = l2.dropWhile p := by
  induction l1 with
  | nil => rfl
  | cons a t ih =>
    rw [List.cons_append, List.dropWhile_cons, h a (List.mem_cons_self a t)]
    simp only [if_pos]
    exact ih (fun x hx => h x (List.mem_cons_of_mem a hx))

theorem dropWhile_all_false (p : Char → Bool) (l : List Char)
    (h : ∀ a ∈ l, p a = false) : l.dropWhile p = l := by
  cases l with
  | nil => rfl
  | cons a t =>
    rw [List.dropWhile_cons, h a (List.mem_cons_self a t)]
    simp

theorem stripTrailingEquals_append (xs pad : List Char)
    (hx : ∀ c ∈ xs, ¬(c = '=')) (hp : ∀ c ∈ pad, c = '=') :
    stripTrailingEquals (xs ++ pad) = xs := by
  unfold stripTrailingEquals
  rw [List.reverse_append]
  rw [dropWhile_append_all _ _ _ (fun a ha => by simp [hp a (List.mem_reverse.mp ha)])]
  rw [dropWhile_all_false _ _ (fun a ha => by simp [hx a (List.mem_reverse.mp ha)])]
  exact List.reverse_reverse xs

/-- C5: generateCodeChallenge is a deterministic pure function of the verifier (the
SHA-256 digest being a function of the verifier's UTF-8 bytes) and its output never
contains a plus, slash or equals character: the two global replacements remove plus
and slash from the base64 body, and since the equals sign appears in base64 output
only as trailing padding, the trailing strip removes every occurrence. -/
theorem challenge_deterministic_and_urlsafe (sha256 : List Nat → List Nat)
    (v w : String) (h : v = w) :
    generateCodeChallenge sha256 v = generateCodeChallenge sha256 w ∧
    (generateCodeChallenge sha256 v).toList.all urlSafeChar = true := by
  subst h
  refine ⟨rfl, ?_⟩
  obtain ⟨body, pad, h1, h2, h3⟩ :=
    base64Chunks_decomp ((sha256 (utf8Bytes v)).map (fun b => b % 256))
  show (stripTrailingEquals
      (((btoa (sha256 (utf8Bytes v))).toList).map base64UrlEscape)).all urlSafeChar = true
  have htl : (btoa (sha256 (utf8Bytes v))).toList
      = base64Chunks ((sha256 (utf8Bytes v)).map (fun b => b % 256)) := rfl
  rw [htl, h1, List.map_append]
  have hsafe : ∀ c ∈ body.map base64UrlEscape, urlSafeChar c = true := by
    intro c hc
    rcases List.mem_map.mp hc with ⟨c0, hc0, rfl⟩
    exact base64Alphabet_escape_safe c0 (h2 c0 hc0)
  have hpadEq : ∀ c ∈ pad.map base64UrlEscape, c = '=' := by
    intro c hc
    rcases List.mem_map.mp hc with ⟨c0, hc0, rfl⟩
    have hc0eq : c0 = '=' := by
      rcases h3 with h3 | h3 | h3 <;> subst h3 <;> simp_all
    subst hc0eq
    rfl
  rw [stripTrailingEquals_append _ _
    (fun c hc => urlSafeChar_ne_equals c (hsafe c hc)) hpadEq]
  rw [List.all_eq_true]
  exact hsafe

/-- Witness for C5 at a concrete digest function and verifier. -/
theorem challenge_deterministic_and_urlsafe_witness :
    generateCodeChallenge (fun l => l) "Man" = generateCodeChallenge (fun l => l) "Man" ∧
    (generateCodeChallenge (fun l => l) "Man").toList.all urlSafeChar = true :=
  challenge_deterministic_and_urlsafe (fun l => l) "Man" "Man" rfl

end PCineGPT
